import Mathlib

/-!
Shallow embedding of the TicketToken settlement engine: the marketplace
program (create / buy / cancel listing, reentrancy guard, fee split) and
the tickettoken program (purchase_tickets, list_ticket_on_marketplace,
checked arithmetic helpers).  Monetary values are u64, embedded as `Nat`
with explicit `% 2^64` where the Rust performs wrapping or truncating
casts; checked operations return `Option`/`Except`.  Public keys are
abstracted as `Nat`.  Timestamps (i64) are `Int`.
-/

/-- Modulus of the u64 machine-integer type. -/
def U64_MOD : Nat := 2 ^ 64

/-- Modulus of the u32 machine-integer type. -/
def U32_MOD : Nat := 2 ^ 32

/-- Rust `u64::checked_add`: `None` exactly when the sum overflows 64 bits. -/
def checked_add (a b : Nat) : Option Nat :=
  if a + b < U64_MOD then some (a + b) else none

/-- Rust `u64::checked_mul`: `None` exactly when the product overflows 64 bits. -/
def checked_mul (a b : Nat) : Option Nat :=
  if a * b < U64_MOD then some (a * b) else none

/-- Rust `u64::checked_sub`: `None` exactly when the subtraction underflows. -/
def checked_sub (a b : Nat) : Option Nat :=
  if b ≤ a then some (a - b) else none

/-- Rust `u64::checked_div`: `None` exactly on division by zero. -/
def checked_div (a b : Nat) : Option Nat :=
  if b = 0 then none else some (a / b)

/-- Rust `u128::saturating_mul` (both operands already widened to u128). -/
def u128_saturating_mul (a b : Nat) : Nat :=
  min (a * b) (2 ^ 128 - 1)

/-- Boolean success test for an `Except` result. -/
def isOkE {ε α : Type} : Except ε α → Bool
  | .ok _ => true
  | .error _ => false

/-- Ledger-level result of submitting one settlement call: on success the
returned account state is committed; on error every account write performed
inside the call is discarded and the pre-call state persists.  This is the
atomic abort-on-error commit of the chain runtime described in the
specification's execution model (§5), under which the embedded instruction
handlers run. -/
def ledgerRun {σ ε : Type} (op : σ → Except ε σ) (s : σ) : σ :=
  match op s with
  | .ok s' => s'
  | .error _ => s

/-- Little-endian byte encoding of a natural number into `n` bytes
(Rust `u64::to_le_bytes` for `n = 8`, `Pubkey::to_bytes` for `n = 32`). -/
def le_bytes : Nat → Nat → List Nat
  | 0, _ => []
  | n + 1, v => v % 256 :: le_bytes n (v / 256)

/-- Little-endian byte encoding of an i64 (two's complement). -/
def i64_le_bytes (x : Int) : List Nat :=
  le_bytes 8 (x % (2 ^ 64 : Int)).toNat

namespace Marketplace

/-- Error codes of the marketplace program (`errors.rs`), extended with the
failure modes of the runtime that the handlers can surface: `AccountInUse`
(an `init` account that already exists), `AccountNotFound` (a required
account that does not exist) and `TransferFailed` (a system-program
transfer CPI rejected for insufficient funds or lamport overflow). -/
inductive MarketplaceError
  | MarketplacePaused
  | ListingExpired
  | ListingNotActive
  | PriceCapExceeded
  | InvalidExpiry
  | Unauthorized
  | MathOverflow
  | ReentrancyLocked
  | InsufficientFunds
  | AccountInUse
  | AccountNotFound
  | TransferFailed
  deriving DecidableEq

/-- `state/marketplace_config.rs`: the singleton marketplace configuration. -/
structure MarketplaceConfig where
  authority : Nat
  fee_bps : Nat
  paused : Bool
  total_listings : Nat
  total_sales : Nat
  total_volume : Nat
  treasury : Nat
  bump : Nat
  deriving DecidableEq

/-- `state/listing.rs`: a resale listing account. -/
structure Listing where
  seller : Nat
  event : Nat
  ticket_asset_id : Nat
  price : Nat
  original_price : Nat
  listed_at : Int
  expires_at : Int
  active : Bool
  bump : Nat
  deriving DecidableEq

/-- `Listing::validate_price_cap` (`state/listing.rs` lines 21-34):
`max_price = original_price.checked_mul(110)?.checked_div(100)?`, then
require `price ≤ max_price` else `PriceCapExceeded`. -/
def Listing.validate_price_cap (l : Listing) : Except MarketplaceError Unit :=
  match checked_mul l.original_price 110 with
  | none => .error .MathOverflow
  | some m =>
    match checked_div m 100 with
    | none => .error .MathOverflow
    | some max_price =>
      if l.price ≤ max_price then .ok () else .error .PriceCapExceeded

/-- `Listing::is_within_price_cap` (`state/listing.rs` lines 40-47):
`(original_price as u128).saturating_mul(110).saturating_div(100) as u64`,
then `price ≤ max_price`.  The final `as u64` cast truncates modulo 2^64. -/
def Listing.is_within_price_cap (l : Listing) : Bool :=
  let max_price := u128_saturating_mul l.original_price 110 / 100 % U64_MOD
  l.price ≤ max_price

/-- `Listing::is_expired`: `current_timestamp > expires_at`. -/
def Listing.is_expired (l : Listing) (current_timestamp : Int) : Bool :=
  l.expires_at < current_timestamp

/-- `utils/reentrancy.rs`: the per-resource lock account. -/
structure ReentrancyGuard where
  is_locked : Bool
  bump : Nat
  deriving DecidableEq

/-- `ReentrancyGuard::lock`: fails with `ReentrancyLocked` when already
locked (leaving the account untouched), otherwise sets `is_locked`. -/
def ReentrancyGuard.lock (g : ReentrancyGuard) :
    Except MarketplaceError ReentrancyGuard :=
  if g.is_locked then .error .ReentrancyLocked
  else .ok { g with is_locked := true }

/-- `ReentrancyGuard.unlock`: always succeeds and clears `is_locked`. -/
def ReentrancyGuard.unlock (g : ReentrancyGuard) :
    Except MarketplaceError ReentrancyGuard :=
  .ok { g with is_locked := false }

/-- Lifts a checked-arithmetic result exactly as the handlers'
`.ok_or(MarketplaceError::MathOverflow)?` does. -/
def ok_or_overflow (o : Option Nat) : Except MarketplaceError Nat :=
  match o with
  | some v => .ok v
  | none => .error .MathOverflow

/-- Fee computation inlined in `buy_listing` (lines 59-70):
`price.checked_mul(bps)?.checked_div(10_000)?`. -/
def mkt_fee (price bps : Nat) : Except MarketplaceError Nat :=
  match checked_mul price bps with
  | none => .error .MathOverflow
  | some m =>
    match checked_div m 10000 with
    | none => .error .MathOverflow
    | some fee => .ok fee

/-- The three-way split computed by `buy_listing` (lines 59-76):
marketplace fee at `fee_bps`, fixed 500 bps venue royalty, and the
checked-subtraction remainder for the seller. -/
def compute_split (price fee_bps : Nat) :
    Except MarketplaceError (Nat × Nat × Nat) :=
  match mkt_fee price fee_bps with
  | .error e => .error e
  | .ok marketplace_fee =>
    match mkt_fee price 500 with
    | .error e => .error e
    | .ok venue_royalty =>
      match checked_sub price marketplace_fee with
      | none => .error .MathOverflow
      | some s1 =>
        match checked_sub s1 venue_royalty with
        | none => .error .MathOverflow
        | some seller_amount =>
          .ok (marketplace_fee, venue_royalty, seller_amount)

/-- System-program lamport transfer: fails when the source balance is
insufficient or the destination balance would overflow u64; otherwise
moves `amount` and returns the two updated balances. -/
def transfer (src dst amount : Nat) : Except MarketplaceError (Nat × Nat) :=
  if amount ≤ src then
    if dst + amount < U64_MOD then .ok (src - amount, dst + amount)
    else .error .TransferFailed
  else .error .TransferFailed

/-- Accounts touched by `BuyListing` (`buy_listing.rs`), with the lamport
balance of every fund-movement participant and the clock reading. -/
structure BuyState where
  listing : Listing
  marketplace : MarketplaceConfig
  guard : ReentrancyGuard
  buyer_lamports : Nat
  seller_lamports : Nat
  marketplace_treasury_lamports : Nat
  venue_treasury_lamports : Nat
  now : Int
  deriving DecidableEq

/-- `buy_listing` (`instructions/buy_listing.rs` lines 51-145), preceded by
the `BuyListing` account constraints (`listing.active`, not expired).
Unchecked Rust `+=` on `total_sales` is embedded as wrapping u64 addition. -/
def buy_listing (s : BuyState) : Except MarketplaceError BuyState :=
  if s.listing.active = false then .error .ListingNotActive
  else if s.listing.is_expired s.now then .error .ListingExpired
  else
    match s.guard.lock with
    | .error e => .error e
    | .ok g =>
      match compute_split s.listing.price s.marketplace.fee_bps with
      | .error e => .error e
      | .ok (marketplace_fee, venue_royalty, seller_amount) =>
        match transfer s.buyer_lamports s.seller_lamports seller_amount with
        | .error e => .error e
        | .ok (b1, seller1) =>
          match
            if 0 < marketplace_fee then
              transfer b1 s.marketplace_treasury_lamports marketplace_fee
            else .ok (b1, s.marketplace_treasury_lamports) with
          | .error e => .error e
          | .ok (b2, mt1) =>
            match
              if 0 < venue_royalty then
                transfer b2 s.venue_treasury_lamports venue_royalty
              else .ok (b2, s.venue_treasury_lamports) with
            | .error e => .error e
            | .ok (b3, vt1) =>
              match checked_add s.marketplace.total_volume s.listing.price with
              | none => .error .MathOverflow
              | some total_volume1 =>
                match g.unlock with
                | .error e => .error e
                | .ok g1 =>
                  .ok { s with
                    listing := { s.listing with active := false }
                    marketplace :=
                      { s.marketplace with
                        total_sales :=
                          (s.marketplace.total_sales + 1) % U64_MOD
                        total_volume := total_volume1 }
                    guard := g1
                    buyer_lamports := b3
                    seller_lamports := seller1
                    marketplace_treasury_lamports := mt1
                    venue_treasury_lamports := vt1 }

/-- Arguments of `create_listing`. -/
structure CreateArgs where
  asset_id : Nat
  price : Nat
  original_price : Nat
  expires_at : Int
  deriving DecidableEq

/-- Accounts touched by `CreateListing`: the config plus the two
`init` accounts, absent (`none`) before a successful call. -/
structure CreateState where
  marketplace : MarketplaceConfig
  listing : Option Listing
  guard : Option ReentrancyGuard
  seller : Nat
  event : Nat
  now : Int
  deriving DecidableEq

/-- `create_listing` (`instructions/create_listing.rs` lines 50-99),
preceded by the account constraints (`!marketplace.paused`, `init` of the
listing and guard accounts).  Unchecked `+=` on `total_listings` is
embedded as wrapping u64 addition; the PDA bumps are abstracted as 0. -/
def create_listing (s : CreateState) (args : CreateArgs) :
    Except MarketplaceError CreateState :=
  if s.marketplace.paused then .error .MarketplacePaused
  else if s.listing.isSome then .error .AccountInUse
  else if s.guard.isSome then .error .AccountInUse
  else if args.expires_at ≤ s.now then .error .InvalidExpiry
  else
    let listing : Listing :=
      { seller := s.seller
        event := s.event
        ticket_asset_id := args.asset_id
        price := args.price
        original_price := args.original_price
        listed_at := s.now
        expires_at := args.expires_at
        active := true
        bump := 0 }
    match listing.validate_price_cap with
    | .error e => .error e
    | .ok _ =>
      .ok { s with
        marketplace :=
          { s.marketplace with
            total_listings := (s.marketplace.total_listings + 1) % U64_MOD }
        listing := some listing
        guard := some { is_locked := false, bump := 0 } }

/-- Accounts touched by `CancelListing`: the listing and guard (present
before the call, closed by it) and the caller's key. -/
structure CancelState where
  caller : Nat
  listing : Option Listing
  guard : Option ReentrancyGuard
  deriving DecidableEq

/-- `cancel_listing` (`instructions/cancel_listing.rs`): the account
constraints (`listing.seller == seller.key()`, `listing.active`) are the
only checks; success closes both accounts.  The handler body only emits. -/
def cancel_listing (s : CancelState) : Except MarketplaceError CancelState :=
  match s.listing, s.guard with
  | some l, some _ =>
    if l.seller ≠ s.caller then .error .Unauthorized
    else if l.active = false then .error .ListingNotActive
    else .ok { s with listing := none, guard := none }
  | _, _ => .error .AccountNotFound

end Marketplace

namespace TicketToken

/-- Error codes of the tickettoken program (`errors.rs`), extended with
`TransferFailed` for a rejected system-program transfer CPI. -/
inductive TicketTokenError
  | InvalidTreeDepth
  | InvalidBufferSize
  | InvalidCanopyDepth
  | ClockError
  | FeeTooHigh
  | InvalidTreasury
  | Unauthorized
  | VenueIdTooLong
  | VenueNameTooLong
  | InvalidVenueId
  | VenueNotVerified
  | VenueInactive
  | AlreadyVerified
  | UnauthorizedVenue
  | InvalidEventVenue
  | InvalidCapacity
  | InvalidEventName
  | DescriptionTooLong
  | EventAlreadyStarted
  | StartTimeTooSoon
  | EndBeforeStart
  | EventTooLong
  | InvalidQuantity
  | InsufficientTickets
  | UriTooLong
  | PriceTooLow
  | PriceTooHigh
  | PriceExceedsMax
  | ResaleNotAllowed
  | InvalidExpiry
  | MathOverflow
  | InvalidCharacters
  | RefundWindowTooLong
  | ReentrancyLocked
  | InvalidRoyaltyPercentage
  | TicketAlreadyUsed
  | InvalidTicket
  | TransferNotAllowed
  | OwnerIdTooLong
  | TransferFailed
  deriving DecidableEq

/-- `constants.rs`: `MAX_TICKET_PURCHASE`. -/
def MAX_TICKET_PURCHASE : Nat := 10

/-- `constants.rs`: `MIN_TICKET_PRICE`. -/
def MIN_TICKET_PRICE : Nat := 100000

/-- `constants.rs`: `MAX_TICKET_PRICE`. -/
def MAX_TICKET_PRICE : Nat := 1000000000000

/-- `utils/mod.rs` `safe_add`: checked u64 addition or `MathOverflow`. -/
def safe_add (a b : Nat) : Except TicketTokenError Nat :=
  match checked_add a b with
  | some v => .ok v
  | none => .error .MathOverflow

/-- `utils/mod.rs` `safe_mul`: checked u64 multiplication or `MathOverflow`. -/
def safe_mul (a b : Nat) : Except TicketTokenError Nat :=
  match checked_mul a b with
  | some v => .ok v
  | none => .error .MathOverflow

/-- `utils/mod.rs` `safe_div`: explicit zero-divisor test, then checked
division; failure is `MathOverflow`. -/
def safe_div (a b : Nat) : Except TicketTokenError Nat :=
  if b = 0 then .error .MathOverflow
  else
    match checked_div a b with
    | some v => .ok v
    | none => .error .MathOverflow

/-- `utils/mod.rs` `calculate_fee`: `safe_mul(amount, fee_bps)` then a
checked divide by 10 000. -/
def calculate_fee (amount fee_bps : Nat) : Except TicketTokenError Nat :=
  match safe_mul amount fee_bps with
  | .error e => .error e
  | .ok fee =>
    match checked_div fee 10000 with
    | some v => .ok v
    | none => .error .MathOverflow

/-- `state/platform.rs`: the singleton platform account. -/
structure Platform where
  owner : Nat
  treasury : Nat
  fee_bps : Nat
  paused : Bool
  total_venues : Nat
  total_events : Nat
  total_tickets_sold : Nat
  total_fees_collected : Nat
  bump : Nat
  deriving DecidableEq

/-- `state/venue.rs`: a venue account. -/
structure Venue where
  venue_id : List Nat
  owner : Nat
  name : List Nat
  metadata_uri : List Nat
  verified : Bool
  active : Bool
  event_count : Nat
  total_sales : Nat
  bump : Nat
  deriving DecidableEq

/-- `state/event.rs`: an event account. -/
structure Event where
  venue : Nat
  event_id : Nat
  name : List Nat
  ticket_price : Nat
  total_tickets : Nat
  tickets_sold : Nat
  tickets_reserved : Nat
  start_time : Int
  end_time : Int
  refund_window : Int
  metadata_uri : List Nat
  oracle_feed : Nat
  description : List Nat
  transferable : Bool
  resaleable : Bool
  merkle_tree : Nat
  bump : Nat
  deriving DecidableEq

/-- `utils/reentrancy.rs` of the tickettoken program (textually identical
to the marketplace guard, keyed by event). -/
structure ReentrancyGuard where
  is_locked : Bool
  bump : Nat
  deriving DecidableEq

/-- `ReentrancyGuard::lock` of the tickettoken program. -/
def ReentrancyGuard.lock (g : ReentrancyGuard) :
    Except TicketTokenError ReentrancyGuard :=
  if g.is_locked then .error .ReentrancyLocked
  else .ok { g with is_locked := true }

/-- `ReentrancyGuard.unlock` of the tickettoken program. -/
def ReentrancyGuard.unlock (g : ReentrancyGuard) :
    Except TicketTokenError ReentrancyGuard :=
  .ok { g with is_locked := false }

/-- System-program lamport transfer, as in the marketplace embedding. -/
def transfer (src dst amount : Nat) : Except TicketTokenError (Nat × Nat) :=
  if amount ≤ src then
    if dst + amount < U64_MOD then .ok (src - amount, dst + amount)
    else .error .TransferFailed
  else .error .TransferFailed

/-- `state/ticket.rs` `MintTicketArgs`. -/
structure MintTicketArgs where
  quantity : Nat
  «section» : String
  row : String
  seat_start : Nat
  deriving DecidableEq

/-- The fallible part of the minting loop of `purchase_tickets` (lines
142-156): for each `i < quantity` both `start_ticket_number.checked_add(i)`
and `seat_start.checked_add(i)` must stay inside u32. -/
def mint_loop (start_ticket seat_start : Nat) :
    Nat → Except TicketTokenError Unit
  | 0 => .ok ()
  | n + 1 =>
    match mint_loop start_ticket seat_start n with
    | .error e => .error e
    | .ok _ =>
      if start_ticket + n < U32_MOD then
        if seat_start + n < U32_MOD then .ok ()
        else .error .MathOverflow
      else .error .MathOverflow

/-- The `TicketsPurchased` record emitted by `purchase_tickets`. -/
structure TicketsPurchased where
  buyer : Nat
  event : Nat
  venue : Nat
  quantity : Nat
  price_each : Nat
  total_paid : Nat
  platform_fee : Nat
  start_ticket_number : Nat
  timestamp : Int
  deriving DecidableEq

/-- Accounts touched by `PurchaseTickets` (`purchase_tickets.rs`), with the
lamport balance of every fund-movement participant, the account keys the
constraints compare, and the clock reading. -/
structure PurchaseState where
  platform : Platform
  venue : Venue
  event : Event
  guard : ReentrancyGuard
  buyer : Nat
  venue_key : Nat
  event_key : Nat
  platform_treasury_key : Nat
  buyer_lamports : Nat
  venue_treasury_lamports : Nat
  platform_treasury_lamports : Nat
  now : Int
  deriving DecidableEq

/-- `purchase_tickets` (`instructions/purchase_tickets.rs` lines 64-176),
preceded by the `PurchaseTickets` account constraints (venue verified and
active, `event.venue == venue.key()`, `platform_treasury.key() ==
platform.treasury`).  The `new_sold as u32` store and the u32 subtraction
producing `start_ticket_number` are embedded as wrapping casts. -/
def purchase_tickets (s : PurchaseState) (args : MintTicketArgs) :
    Except TicketTokenError (PurchaseState × TicketsPurchased) :=
  if s.venue.verified = false then .error .VenueNotVerified
  else if s.venue.active = false then .error .VenueInactive
  else if s.event.venue ≠ s.venue_key then .error .InvalidEventVenue
  else if s.platform_treasury_key ≠ s.platform.treasury then
    .error .InvalidTreasury
  else
    match s.guard.lock with
    | .error e => .error e
    | .ok g =>
      if s.event.start_time ≤ s.now then .error .EventAlreadyStarted
      else if ¬(0 < args.quantity ∧ args.quantity ≤ MAX_TICKET_PURCHASE) then
        .error .InvalidQuantity
      else
        match safe_add s.event.tickets_sold args.quantity with
        | .error e => .error e
        | .ok new_sold =>
          if s.event.total_tickets < new_sold then .error .InsufficientTickets
          else
            match safe_mul s.event.ticket_price args.quantity with
            | .error e => .error e
            | .ok ticket_cost =>
              match calculate_fee ticket_cost s.platform.fee_bps with
              | .error e => .error e
              | .ok platform_fee =>
                match checked_sub ticket_cost platform_fee with
                | none => .error .MathOverflow
                | some venue_amount =>
                  match transfer s.buyer_lamports s.venue_treasury_lamports
                      venue_amount with
                  | .error e => .error e
                  | .ok (b1, vt1) =>
                    match
                      if 0 < platform_fee then
                        transfer b1 s.platform_treasury_lamports platform_fee
                      else .ok (b1, s.platform_treasury_lamports) with
                    | .error e => .error e
                    | .ok (b2, pt1) =>
                      match safe_add s.venue.total_sales args.quantity with
                      | .error e => .error e
                      | .ok venue_sales1 =>
                        match
                          mint_loop
                            ((new_sold % U32_MOD + U32_MOD -
                              args.quantity % U32_MOD) % U32_MOD)
                            args.seat_start args.quantity with
                        | .error e => .error e
                        | .ok _ =>
                          match g.unlock with
                          | .error e => .error e
                          | .ok g1 =>
                            .ok ({ s with
                                event := { s.event with
                                  tickets_sold := new_sold % U32_MOD }
                                venue :=
                                  { s.venue with total_sales := venue_sales1 }
                                guard := g1
                                buyer_lamports := b2
                                venue_treasury_lamports := vt1
                                platform_treasury_lamports := pt1 },
                              { buyer := s.buyer
                                event := s.event_key
                                venue := s.venue_key
                                quantity := args.quantity
                                price_each := s.event.ticket_price
                                total_paid := ticket_cost
                                platform_fee := platform_fee
                                start_ticket_number :=
                                  (new_sold % U32_MOD + U32_MOD -
                                    args.quantity % U32_MOD) % U32_MOD
                                timestamp := s.now })

/-- State projection of `purchase_tickets`, used for the ledger-commit
statements (the emitted record is not account state). -/
def purchase_tickets_state (args : MintTicketArgs) (s : PurchaseState) :
    Except TicketTokenError PurchaseState :=
  Except.map Prod.fst (purchase_tickets s args)

/-- Solana `AccountMeta`. -/
structure AccountMeta where
  pubkey : Nat
  is_signer : Bool
  is_writable : Bool
  deriving DecidableEq

/-- Solana `Instruction`: target program, account metas, raw data bytes. -/
structure Instruction where
  program_id : Nat
  accounts : List AccountMeta
  data : List Nat
  deriving DecidableEq

/-- Accounts given to `ListTicketOnMarketplace`
(`list_ticket_on_marketplace.rs` lines 9-35), all read-only for the event,
plus the clock reading. -/
structure ListCtx where
  ticket_owner : Nat
  event : Event
  event_key : Nat
  marketplace_program : Nat
  marketplace_config : Nat
  listing_account : Nat
  listing_reentrancy_guard : Nat
  system_program : Nat
  now : Int
  deriving DecidableEq

/-- `list_ticket_on_marketplace` (`list_ticket_on_marketplace.rs` lines
37-116), preceded by the account constraints (`event.resaleable`, clock
before `event.start_time`).  On success it returns the cross-program
instruction handed to `invoke`: the marketplace program id, the account
metas in source order (the ticket owner as the only signer), and the data
bytes: the 8-byte `create_listing` selector used by the source, the asset
id, `price`, `original_price = event.ticket_price` and `expires_at`, each
little-endian.  The handler writes none of its own accounts. -/
def list_ticket_on_marketplace (c : ListCtx) (ticket_asset_id price : Nat)
    (expires_at : Int) : Except TicketTokenError Instruction :=
  if c.event.resaleable = false then .error .ResaleNotAllowed
  else if c.event.start_time ≤ c.now then .error .EventAlreadyStarted
  else
    match checked_mul c.event.ticket_price 110 with
    | none => .error .MathOverflow
    | some m =>
      match checked_div m 100 with
      | none => .error .MathOverflow
      | some max_price =>
        if ¬(price ≤ max_price) then .error .PriceExceedsMax
        else if ¬(c.now < expires_at ∧ expires_at ≤ c.event.start_time) then
          .error .InvalidExpiry
        else
          .ok
            { program_id := c.marketplace_program
              accounts :=
                [{ pubkey := c.ticket_owner,
                   is_signer := true, is_writable := true },
                 { pubkey := c.marketplace_config,
                   is_signer := false, is_writable := false },
                 { pubkey := c.listing_account,
                   is_signer := false, is_writable := true },
                 { pubkey := c.event_key,
                   is_signer := false, is_writable := false },
                 { pubkey := c.listing_reentrancy_guard,
                   is_signer := false, is_writable := true },
                 { pubkey := c.system_program,
                   is_signer := false, is_writable := false }]
              data :=
                [242, 93, 182, 110, 115, 127, 189, 59] ++
                  le_bytes 32 ticket_asset_id ++
                  le_bytes 8 price ++
                  le_bytes 8 c.event.ticket_price ++
                  i64_le_bytes expires_at }

/-- `utils/validation.rs` `validate_price_bounds`: ticket prices accepted
by `create_event` lie in `[MIN_TICKET_PRICE, MAX_TICKET_PRICE]`. -/
def validate_price_bounds (price : Nat) : Except TicketTokenError Unit :=
  if price < MIN_TICKET_PRICE then .error .PriceTooLow
  else if MAX_TICKET_PRICE < price then .error .PriceTooHigh
  else .ok ()

end TicketToken

/-- Test fixture: an unpaused marketplace configuration with a 250 bps fee
and fresh counters. -/
def Marketplace.testConfig : Marketplace.MarketplaceConfig :=
  { authority := 0, fee_bps := 250, paused := false, total_listings := 0,
    total_sales := 0, total_volume := 0, treasury := 0, bump := 0 }

/-- Test fixture: a fresh `create_listing` context (listing and guard not
yet initialized), clock at 0. -/
def Marketplace.testCreateState : Marketplace.CreateState :=
  { marketplace := Marketplace.testConfig, listing := none, guard := none,
    seller := 1, event := 2, now := 0 }

/-- Test fixture: an active, unexpired listing at price 10 000. -/
def Marketplace.testListing : Marketplace.Listing :=
  { seller := 1, event := 2, ticket_asset_id := 3, price := 10000,
    original_price := 10000, listed_at := 0, expires_at := 100,
    active := true, bump := 0 }

/-- Test fixture: a `buy_listing` context whose purchase succeeds. -/
def Marketplace.testBuyState : Marketplace.BuyState :=
  { listing := Marketplace.testListing,
    marketplace := Marketplace.testConfig,
    guard := { is_locked := false, bump := 0 },
    buyer_lamports := 1000000, seller_lamports := 0,
    marketplace_treasury_lamports := 0, venue_treasury_lamports := 0,
    now := 0 }

/-- Test fixture: a platform account with a 250 bps fee, treasury key 7. -/
def TicketToken.testPlatform : TicketToken.Platform :=
  { owner := 0, treasury := 7, fee_bps := 250, paused := false,
    total_venues := 0, total_events := 0, total_tickets_sold := 0,
    total_fees_collected := 0, bump := 0 }

/-- Test fixture: a verified, active venue with no sales yet. -/
def TicketToken.testVenue : TicketToken.Venue :=
  { venue_id := [], owner := 0, name := [], metadata_uri := [],
    verified := true, active := true, event_count := 0, total_sales := 0,
    bump := 0 }

/-- Test fixture: a resaleable future event, 10 of 100 tickets sold. -/
def TicketToken.testEvent : TicketToken.Event :=
  { venue := 5, event_id := 1, name := [], ticket_price := 100000,
    total_tickets := 100, tickets_sold := 10, tickets_reserved := 0,
    start_time := 1000, end_time := 2000, refund_window := 0,
    metadata_uri := [], oracle_feed := 0, description := [],
    transferable := true, resaleable := true, merkle_tree := 0, bump := 0 }

/-- Test fixture: a `purchase_tickets` context whose purchase succeeds. -/
def TicketToken.testPurchaseState : TicketToken.PurchaseState :=
  { platform := TicketToken.testPlatform, venue := TicketToken.testVenue,
    event := TicketToken.testEvent,
    guard := { is_locked := false, bump := 0 },
    buyer := 11, venue_key := 5, event_key := 6,
    platform_treasury_key := 7, buyer_lamports := 1000000000,
    venue_treasury_lamports := 0, platform_treasury_lamports := 0,
    now := 0 }

/-- Test fixture: a two-ticket purchase request. -/
def TicketToken.testArgs : TicketToken.MintTicketArgs :=
  { quantity := 2, «section» := "A", row := "1", seat_start := 0 }

/-- Test fixture: the state `buy_listing` commits from `testBuyState`
(split 250 / 500 / 9250 of the 10 000 price, listing deactivated,
counters advanced, guard unlocked). -/
def Marketplace.testBuyResult : Marketplace.BuyState :=
  { listing := { Marketplace.testListing with active := false },
    marketplace := { Marketplace.testConfig with
      total_sales := 1, total_volume := 10000 },
    guard := { is_locked := false, bump := 0 },
    buyer_lamports := 990000, seller_lamports := 9250,
    marketplace_treasury_lamports := 250, venue_treasury_lamports := 500,
    now := 0 }

/-- Test fixture: the state `purchase_tickets` commits from
`testPurchaseState` with `testArgs` (cost 200 000, fee 5 000). -/
def TicketToken.testPurchaseResult : TicketToken.PurchaseState :=
  { TicketToken.testPurchaseState with
    event := { TicketToken.testEvent with tickets_sold := 12 },
    venue := { TicketToken.testVenue with total_sales := 2 },
    guard := { is_locked := false, bump := 0 },
    buyer_lamports := 999800000, venue_treasury_lamports := 195000,
    platform_treasury_lamports := 5000 }

/-- Test fixture: the record emitted by that purchase. -/
def TicketToken.testPurchaseRecord : TicketToken.TicketsPurchased :=
  { buyer := 11, event := 6, venue := 5, quantity := 2,
    price_each := 100000, total_paid := 200000, platform_fee := 5000,
    start_ticket_number := 10, timestamp := 0 }

/-- Test fixture: a bridge context over `testEvent`, clock at 0. -/
def TicketToken.testListCtx : TicketToken.ListCtx :=
  { ticket_owner := 21, event := TicketToken.testEvent, event_key := 6,
    marketplace_program := 30, marketplace_config := 31,
    listing_account := 32, listing_reentrancy_guard := 33,
    system_program := 0, now := 0 }

/-- Test fixture: the cross-program instruction the bridge builds from
`testListCtx` for asset 9, price 110 000 (exactly the cap), expiry 500. -/
def TicketToken.testInstruction : TicketToken.Instruction :=
  { program_id := 30
    accounts :=
      [{ pubkey := 21, is_signer := true, is_writable := true },
       { pubkey := 31, is_signer := false, is_writable := false },
       { pubkey := 32, is_signer := false, is_writable := true },
       { pubkey := 6, is_signer := false, is_writable := false },
       { pubkey := 33, is_signer := false, is_writable := true },
       { pubkey := 0, is_signer := false, is_writable := false }]
    data := [242, 93, 182, 110, 115, 127, 189, 59] ++ le_bytes 32 9 ++
      le_bytes 8 110000 ++ le_bytes 8 100000 ++ i64_le_bytes 500 }

deriving instance DecidableEq for Except

/-! Helper lemmas shared by the claim theorems. -/

theorem ledgerRun_of_not_ok {σ ε : Type} (op : σ → Except ε σ) (s : σ)
    (h : isOkE (op s) = false) : ledgerRun op s = s := by
  unfold ledgerRun
  cases hop : op s with
  | ok s' => rw [hop] at h; simp [isOkE] at h
  | error e => rfl

theorem mkt_fee_ok_iff (price bps f : Nat) :
    Marketplace.mkt_fee price bps = .ok f ↔
      price * bps < U64_MOD ∧ f = price * bps / 10000 := by
  unfold Marketplace.mkt_fee checked_mul checked_div
  by_cases h : price * bps < U64_MOD <;> simp [h, eq_comm]

theorem mkt_fee_overflow (price bps : Nat) (h : U64_MOD ≤ price * bps) :
    Marketplace.mkt_fee price bps = .error .MathOverflow := by
  unfold Marketplace.mkt_fee checked_mul checked_div
  simp [Nat.not_lt.mpr h]

theorem checked_sub_some_iff (a b v : Nat) :
    checked_sub a b = some v ↔ b ≤ a ∧ v = a - b := by
  unfold checked_sub
  by_cases h : b ≤ a <;> simp [h, eq_comm]

theorem checked_add_some_iff (a b v : Nat) :
    checked_add a b = some v ↔ a + b < U64_MOD ∧ v = a + b := by
  unfold checked_add
  by_cases h : a + b < U64_MOD <;> simp [h, eq_comm]

theorem safe_add_ok_iff (a b v : Nat) :
    TicketToken.safe_add a b = .ok v ↔ a + b < U64_MOD ∧ v = a + b := by
  unfold TicketToken.safe_add checked_add
  by_cases h : a + b < U64_MOD <;> simp [h, eq_comm]

theorem safe_mul_ok_iff (a b v : Nat) :
    TicketToken.safe_mul a b = .ok v ↔ a * b < U64_MOD ∧ v = a * b := by
  unfold TicketToken.safe_mul checked_mul
  by_cases h : a * b < U64_MOD <;> simp [h, eq_comm]

theorem calculate_fee_ok_iff (amount bps f : Nat) :
    TicketToken.calculate_fee amount bps = .ok f ↔
      amount * bps < U64_MOD ∧ f = amount * bps / 10000 := by
  unfold TicketToken.calculate_fee TicketToken.safe_mul checked_mul checked_div
  by_cases h : amount * bps < U64_MOD <;> simp [h, eq_comm]

theorem calculate_fee_overflow (amount bps : Nat)
    (h : U64_MOD ≤ amount * bps) :
    TicketToken.calculate_fee amount bps = .error .MathOverflow := by
  unfold TicketToken.calculate_fee TicketToken.safe_mul checked_mul checked_div
  simp [Nat.not_lt.mpr h]

theorem mkt_transfer_ok_iff (src dst amount : Nat) (p : Nat × Nat) :
    Marketplace.transfer src dst amount = .ok p ↔
      amount ≤ src ∧ dst + amount < U64_MOD ∧ p = (src - amount, dst + amount) := by
  unfold Marketplace.transfer
  by_cases h1 : amount ≤ src <;> by_cases h2 : dst + amount < U64_MOD <;>
    simp [h1, h2, eq_comm]

theorem tt_transfer_ok_iff (src dst amount : Nat) (p : Nat × Nat) :
    TicketToken.transfer src dst amount = .ok p ↔
      amount ≤ src ∧ dst + amount < U64_MOD ∧ p = (src - amount, dst + amount) := by
  unfold TicketToken.transfer
  by_cases h1 : amount ≤ src <;> by_cases h2 : dst + amount < U64_MOD <;>
    simp [h1, h2, eq_comm]

theorem U32_MOD_eq : U32_MOD = 4294967296 := by norm_num [U32_MOD]

theorem U64_MOD_eq : U64_MOD = 18446744073709551616 := by norm_num [U64_MOD]

theorem validate_price_cap_ok_iff (l : Marketplace.Listing) :
    l.validate_price_cap = .ok () ↔
      l.original_price * 110 < U64_MOD
        ∧ l.price ≤ l.original_price * 110 / 100 := by
  unfold Marketplace.Listing.validate_price_cap checked_mul checked_div
  by_cases h1 : l.original_price * 110 < U64_MOD
  · by_cases h2 : l.price ≤ l.original_price * 110 / 100 <;> simp [h1, h2]
  · simp [h1]

theorem validate_price_cap_exceeded (l : Marketplace.Listing)
    (h1 : l.original_price * 110 < U64_MOD)
    (h2 : l.original_price * 110 / 100 < l.price) :
    l.validate_price_cap = .error .PriceCapExceeded := by
  unfold Marketplace.Listing.validate_price_cap checked_mul checked_div
  simp [h1, Nat.not_le.mpr h2]

theorem validate_price_cap_overflow (l : Marketplace.Listing)
    (h : U64_MOD ≤ l.original_price * 110) :
    l.validate_price_cap = .error .MathOverflow := by
  unfold Marketplace.Listing.validate_price_cap checked_mul
  simp [Nat.not_lt.mpr h]

theorem mkt_lock_ok_iff (g g' : Marketplace.ReentrancyGuard) :
    g.lock = .ok g' ↔ g.is_locked = false ∧ g' = { g with is_locked := true } := by
  unfold Marketplace.ReentrancyGuard.lock
  cases hb : g.is_locked <;> simp [eq_comm]

theorem tt_lock_ok_iff (g g' : TicketToken.ReentrancyGuard) :
    g.lock = .ok g' ↔ g.is_locked = false ∧ g' = { g with is_locked := true } := by
  unfold TicketToken.ReentrancyGuard.lock
  cases hb : g.is_locked <;> simp [eq_comm]

theorem mkt_fee_error_eq (price bps : Nat) (e : Marketplace.MarketplaceError)
    (h : Marketplace.mkt_fee price bps = .error e) : e = .MathOverflow := by
  unfold Marketplace.mkt_fee checked_mul checked_div at h
  by_cases h1 : price * bps < U64_MOD
  · simp [h1] at h
  · simp [h1] at h
    exact h.symm

theorem compute_split_error_eq (price bps : Nat)
    (e : Marketplace.MarketplaceError)
    (h : Marketplace.compute_split price bps = .error e) :
    e = .MathOverflow := by
  unfold Marketplace.compute_split at h
  split at h
  · rename_i e1 he1
    cases h
    exact mkt_fee_error_eq _ _ _ he1
  split at h
  · rename_i e1 he1
    cases h
    exact mkt_fee_error_eq _ _ _ he1
  split at h
  · cases h; rfl
  split at h
  · cases h; rfl
  cases h

theorem mkt_transfer_error_eq (src dst amount : Nat)
    (e : Marketplace.MarketplaceError)
    (h : Marketplace.transfer src dst amount = .error e) :
    e = .TransferFailed := by
  unfold Marketplace.transfer at h
  by_cases h1 : amount ≤ src <;> by_cases h2 : dst + amount < U64_MOD <;>
    simp [h1, h2] at h
  all_goals exact h.symm

/-- Full characterization of a successful `create_listing` call. -/
theorem create_listing_ok_iff (s : Marketplace.CreateState)
    (args : Marketplace.CreateArgs) (s' : Marketplace.CreateState) :
    Marketplace.create_listing s args = .ok s' ↔
      s.marketplace.paused = false
        ∧ s.listing = none
        ∧ s.guard = none
        ∧ s.now < args.expires_at
        ∧ args.original_price * 110 < U64_MOD
        ∧ args.price ≤ args.original_price * 110 / 100
        ∧ s' = { s with
            marketplace := { s.marketplace with
              total_listings := (s.marketplace.total_listings + 1) % U64_MOD }
            listing := some
              { seller := s.seller
                event := s.event
                ticket_asset_id := args.asset_id
                price := args.price
                original_price := args.original_price
                listed_at := s.now
                expires_at := args.expires_at
                active := true
                bump := 0 }
            guard := some { is_locked := false, bump := 0 } } := by
  unfold Marketplace.create_listing
  by_cases h1 : s.marketplace.paused
  · simp [h1]
  by_cases h2 : s.listing.isSome
  · have hne : ¬s.listing = none := by
      intro hnone; rw [hnone] at h2; simp at h2
    simp [h1, h2, hne]
  by_cases h3 : s.guard.isSome
  · have hne : ¬s.guard = none := by
      intro hnone; rw [hnone] at h3; simp at h3
    simp [h1, h2, h3, hne]
  by_cases h4 : args.expires_at ≤ s.now
  · simp [h1, h2, h3, h4]
  · have hl2 : s.listing = none := Option.not_isSome_iff_eq_none.mp h2
    have hl3 : s.guard = none := Option.not_isSome_iff_eq_none.mp h3
    simp only [h1, h2, h3, h4, if_false, Bool.false_eq_true]
    cases hv : Marketplace.Listing.validate_price_cap
        { seller := s.seller, event := s.event,
          ticket_asset_id := args.asset_id, price := args.price,
          original_price := args.original_price, listed_at := s.now,
          expires_at := args.expires_at, active := true, bump := 0 } with
    | ok u =>
      cases u
      rw [validate_price_cap_ok_iff] at hv
      simp only [hl2, hl3]
      simp [hv.1, hv.2, eq_comm]
      omega
    | error e =>
      constructor
      · intro hcontra
        cases hcontra
      · rintro ⟨-, -, -, -, hmul, hcap, -⟩
        have hok : Marketplace.Listing.validate_price_cap
            { seller := s.seller, event := s.event,
              ticket_asset_id := args.asset_id, price := args.price,
              original_price := args.original_price, listed_at := s.now,
              expires_at := args.expires_at, active := true, bump := 0 } =
            .ok () := (validate_price_cap_ok_iff _).mpr ⟨hmul, hcap⟩
        rw [hok] at hv
        cases hv

theorem mkt_lock_error_eq (g : Marketplace.ReentrancyGuard)
    (e : Marketplace.MarketplaceError) (h : g.lock = .error e) :
    e = .ReentrancyLocked := by
  by_cases hb : g.is_locked = true
  · simp [Marketplace.ReentrancyGuard.lock, hb] at h
    exact h.symm
  · simp [Marketplace.ReentrancyGuard.lock, hb] at h

theorem mkt_opt_transfer_error_eq (c : Prop) [Decidable c]
    (src dst amount : Nat) (p : Nat × Nat) (e : Marketplace.MarketplaceError)
    (h : (if c then Marketplace.transfer src dst amount else .ok p) =
      .error e) : e = .TransferFailed := by
  by_cases hc : c
  · rw [if_pos hc] at h
    exact mkt_transfer_error_eq _ _ _ _ h
  · rw [if_neg hc] at h
    cases h

/-- The price cap is never consulted by `buy_listing`: no input makes it
fail with `PriceCapExceeded`. -/
theorem buy_listing_no_cap_check (b : Marketplace.BuyState) :
    Marketplace.buy_listing b ≠ .error .PriceCapExceeded := by
  intro h
  unfold Marketplace.buy_listing at h
  split at h
  · simp at h
  split at h
  · simp at h
  split at h
  · rename_i e he
    simp only [Except.error.injEq] at h
    subst h
    have := mkt_lock_error_eq _ _ he
    cases this
  split at h
  · rename_i e he
    simp only [Except.error.injEq] at h
    subst h
    have := compute_split_error_eq _ _ _ he
    cases this
  split at h
  · rename_i e he
    simp only [Except.error.injEq] at h
    subst h
    have := mkt_transfer_error_eq _ _ _ _ he
    cases this
  split at h
  · rename_i e he
    simp only [Except.error.injEq] at h
    subst h
    have := mkt_opt_transfer_error_eq _ _ _ _ _ _ he
    cases this
  split at h
  · rename_i e he
    simp only [Except.error.injEq] at h
    subst h
    have := mkt_opt_transfer_error_eq _ _ _ _ _ _ he
    cases this
  split at h
  · simp at h
  split at h
  · rename_i e he
    simp [Marketplace.ReentrancyGuard.unlock] at he
  simp at h

/-- The price cap is never consulted by `cancel_listing` either. -/
theorem cancel_listing_no_cap_check (s : Marketplace.CancelState) :
    Marketplace.cancel_listing s ≠ .error .PriceCapExceeded := by
  intro h
  unfold Marketplace.cancel_listing at h
  split at h
  · split at h
    · simp at h
    split at h
    · simp at h
    simp at h
  · simp at h

/-! Claim theorems. -/

/-- C1: for every listing price and every marketplace `fee_bps ≤ 1000`, the
three amounts computed by `buy_listing`'s split — the marketplace fee
`⌊price·fee_bps/10000⌋`, the venue royalty `⌊price·500/10000⌋` and the
seller remainder — sum exactly to the price: the split neither creates nor
loses a lamport. -/
theorem claim_C1_split_conserves_price (price fee_bps mf vr sa : Nat)
    (hbps : fee_bps ≤ 1000)
    (h : Marketplace.compute_split price fee_bps = .ok (mf, vr, sa)) :
    mf + vr + sa = price
      ∧ mf = price * fee_bps / 10000
      ∧ vr = price * 500 / 10000 := by
  unfold Marketplace.compute_split at h
  split at h
  · cases h
  rename_i mf1 hmf
  split at h
  · cases h
  rename_i vr1 hvr
  split at h
  · cases h
  rename_i s1 hs1
  split at h
  · cases h
  rename_i s2 hs2
  rw [mkt_fee_ok_iff] at hmf hvr
  rw [checked_sub_some_iff] at hs1 hs2
  simp only [Except.ok.injEq, Prod.mk.injEq] at h
  obtain ⟨h1, h2, h3⟩ := h
  subst h1; subst h2; subst h3
  refine ⟨?_, hmf.2, hvr.2⟩
  omega

/-- C1 witness: the split of price 100 000 000 000 at 750 bps. -/
theorem claim_C1_witness :
    (7500000000 : Nat) + 5000000000 + 87500000000 = 100000000000
      ∧ (7500000000 : Nat) = 100000000000 * 750 / 10000
      ∧ (5000000000 : Nat) = 100000000000 * 500 / 10000 :=
  claim_C1_split_conserves_price 100000000000 750 7500000000 5000000000
    87500000000 (by decide) (by decide)

/-- C3: in both programs, `lock` on a locked guard fails with
`ReentrancyLocked` and (the call aborting) leaves the guard locked; `lock`
on an unlocked guard succeeds and sets `is_locked`; `unlock` always
succeeds and clears `is_locked` whatever the prior state.  In particular a
second `lock` before any `unlock` fails with `ReentrancyLocked` while the
guard remains locked, and no other transitions exist. -/
theorem claim_C3_guard_transitions :
    ∀ (bump : Nat) (b : Bool),
      Marketplace.ReentrancyGuard.lock ⟨true, bump⟩ =
          .error .ReentrancyLocked
        ∧ ledgerRun Marketplace.ReentrancyGuard.lock ⟨true, bump⟩ =
          ⟨true, bump⟩
        ∧ Marketplace.ReentrancyGuard.lock ⟨false, bump⟩ = .ok ⟨true, bump⟩
        ∧ Marketplace.ReentrancyGuard.unlock ⟨b, bump⟩ = .ok ⟨false, bump⟩
        ∧ TicketToken.ReentrancyGuard.lock ⟨true, bump⟩ =
          .error .ReentrancyLocked
        ∧ ledgerRun TicketToken.ReentrancyGuard.lock ⟨true, bump⟩ =
          ⟨true, bump⟩
        ∧ TicketToken.ReentrancyGuard.lock ⟨false, bump⟩ = .ok ⟨true, bump⟩
        ∧ TicketToken.ReentrancyGuard.unlock ⟨b, bump⟩ = .ok ⟨false, bump⟩ := by
  intro bump b
  refine ⟨rfl, rfl, rfl, rfl, rfl, rfl, rfl, rfl⟩

/-- C6: both fee computations (`calculate_fee` and `buy_listing`'s inline
version) return exactly `⌊amount·bps/10000⌋` whenever the 64-bit product
fits, and fail with `MathOverflow` whenever `amount·bps ≥ 2^64` — the
checked multiply runs before the divide.  Scenario A: at `fee_bps = 750`
and price 100 000 000 000 the split is 7 500 000 000 / 5 000 000 000 /
87 500 000 000. -/
theorem claim_C6_fee_exact_or_overflow :
    ∀ amount bps : Nat,
      (amount * bps < U64_MOD →
        TicketToken.calculate_fee amount bps = .ok (amount * bps / 10000)
          ∧ Marketplace.mkt_fee amount bps = .ok (amount * bps / 10000))
        ∧ (U64_MOD ≤ amount * bps →
          TicketToken.calculate_fee amount bps = .error .MathOverflow
            ∧ Marketplace.mkt_fee amount bps = .error .MathOverflow)
        ∧ Marketplace.compute_split 100000000000 750 =
          .ok (7500000000, 5000000000, 87500000000) := by
  intro amount bps
  refine ⟨fun h => ⟨?_, ?_⟩, fun h => ⟨?_, ?_⟩, by decide⟩
  · exact (calculate_fee_ok_iff amount bps _).mpr ⟨h, rfl⟩
  · exact (mkt_fee_ok_iff amount bps _).mpr ⟨h, rfl⟩
  · exact calculate_fee_overflow amount bps h
  · exact mkt_fee_overflow amount bps h

/-- C6 witness: exact fee at Scenario A's inputs, explicit overflow at
`amount = bps = 2^32`. -/
theorem claim_C6_witness :
    TicketToken.calculate_fee 100000000000 750 = .ok 7500000000
      ∧ TicketToken.calculate_fee (2 ^ 32) (2 ^ 32) =
        .error .MathOverflow := by
  constructor
  · have h := ((claim_C6_fee_exact_or_overflow 100000000000 750).1
      (by decide)).1
    simpa using h
  · exact ((claim_C6_fee_exact_or_overflow (2 ^ 32) (2 ^ 32)).2.1
      (by decide)).1

/-- C7 counterexample: `Listing::is_within_price_cap` silently truncates.
At `price = original_price = 17·10^18` the exact floored cap
`⌊original_price·110/100⌋ = 18.7·10^18` admits the price, but the
function's `as u64` cast wraps the cap to 253 255 926 290 448 384 and the
check returns `false` — the operation neither produced the exact floored
result nor failed with `MathOverflow`. -/
theorem claim_C7_counterexample :
    Marketplace.Listing.is_within_price_cap
        { seller := 0, event := 0, ticket_asset_id := 0,
          price := 17000000000000000000,
          original_price := 17000000000000000000,
          listed_at := 0, expires_at := 0, active := true, bump := 0 } = false
      ∧ (17000000000000000000 : Nat) ≤
        17000000000000000000 * 110 / 100 := by
  constructor
  · decide
  · decide

/-- C7 (amended): every arithmetic operation of the checked fee and
price-cap paths (`safe_add`, `safe_mul`, `safe_div`, `calculate_fee`,
`checked_sub`, `Listing::validate_price_cap`, and the inline `buy_listing`
fee ops covered by `mkt_fee` in C6) returns the mathematically exact
(floored) result or fails with `MathOverflow`; the exception is the helper
`Listing::is_within_price_cap`, which computes the cap with saturating u128
arithmetic and truncates it to 64 bits, comparing `price` against
`⌊original_price·110/100⌋ mod 2^64` instead of failing on overflow. -/
theorem claim_C7_checked_arithmetic :
    ∀ (a b : Nat) (l : Marketplace.Listing),
      (a + b < U64_MOD → TicketToken.safe_add a b = .ok (a + b))
        ∧ (U64_MOD ≤ a + b →
          TicketToken.safe_add a b = .error .MathOverflow)
        ∧ (a * b < U64_MOD → TicketToken.safe_mul a b = .ok (a * b))
        ∧ (U64_MOD ≤ a * b →
          TicketToken.safe_mul a b = .error .MathOverflow)
        ∧ (b = 0 → TicketToken.safe_div a b = .error .MathOverflow)
        ∧ (b ≠ 0 → TicketToken.safe_div a b = .ok (a / b))
        ∧ (a * b < U64_MOD →
          TicketToken.calculate_fee a b = .ok (a * b / 10000))
        ∧ (U64_MOD ≤ a * b →
          TicketToken.calculate_fee a b = .error .MathOverflow)
        ∧ (b ≤ a → checked_sub a b = some (a - b))
        ∧ (a < b → checked_sub a b = none)
        ∧ (l.original_price * 110 < U64_MOD →
          (l.price ≤ l.original_price * 110 / 100 →
            l.validate_price_cap = .ok ())
            ∧ (l.original_price * 110 / 100 < l.price →
              l.validate_price_cap = .error .PriceCapExceeded))
        ∧ (U64_MOD ≤ l.original_price * 110 →
          l.validate_price_cap = .error .MathOverflow)
        ∧ (l.original_price < U64_MOD →
          l.is_within_price_cap =
            decide (l.price ≤ l.original_price * 110 / 100 % U64_MOD)) := by
  intro a b l
  refine ⟨?_, ?_, ?_, ?_, ?_, ?_, ?_, ?_, ?_, ?_, ?_, ?_, ?_⟩
  · intro h; exact (safe_add_ok_iff a b _).mpr ⟨h, rfl⟩
  · intro h
    unfold TicketToken.safe_add checked_add
    simp [Nat.not_lt.mpr h]
  · intro h; exact (safe_mul_ok_iff a b _).mpr ⟨h, rfl⟩
  · intro h
    unfold TicketToken.safe_mul checked_mul
    simp [Nat.not_lt.mpr h]
  · intro h; simp [TicketToken.safe_div, h]
  · intro h; simp [TicketToken.safe_div, h, checked_div]
  · intro h; exact (calculate_fee_ok_iff a b _).mpr ⟨h, rfl⟩
  · intro h; exact calculate_fee_overflow a b h
  · intro h; simp [checked_sub, h]
  · intro h; simp [checked_sub, Nat.not_le.mpr h]
  · intro h
    constructor
    · intro hle
      unfold Marketplace.Listing.validate_price_cap checked_mul checked_div
      simp [h, hle]
    · intro hgt
      unfold Marketplace.Listing.validate_price_cap checked_mul checked_div
      simp [h, Nat.not_le.mpr hgt]
  · intro h
    unfold Marketplace.Listing.validate_price_cap checked_mul
    simp [Nat.not_lt.mpr h]
  · intro h
    unfold Marketplace.Listing.is_within_price_cap u128_saturating_mul
    have hmin : min (l.original_price * 110) (2 ^ 128 - 1) =
        l.original_price * 110 := by
      have : l.original_price * 110 ≤ 2 ^ 128 - 1 := by
        unfold U64_MOD at h
        have h1 : l.original_price * 110 ≤ 2 ^ 64 * 110 :=
          mul_le_mul_right' h.le 110
        have h2 : (2 : Nat) ^ 64 * 110 ≤ 2 ^ 128 - 1 := by norm_num
        omega
      omega
    rw [hmin]

/-- C7 witness: the amended characterization evaluated at `a = 3·10^18`,
`b = 7` and Scenario B's listing. -/
theorem claim_C7_witness :
    TicketToken.safe_mul 3000000000000000000 7 = .error .MathOverflow
      ∧ Marketplace.Listing.validate_price_cap
          { seller := 0, event := 0, ticket_asset_id := 0,
            price := 55000000000, original_price := 50000000000,
            listed_at := 0, expires_at := 0, active := true, bump := 0 } =
        .ok () := by
  constructor
  · exact (claim_C7_checked_arithmetic 3000000000000000000 7
      { seller := 0, event := 0, ticket_asset_id := 0, price := 0,
        original_price := 0, listed_at := 0, expires_at := 0,
        active := true, bump := 0 }).2.2.2.1 (by decide)
  · exact ((claim_C7_checked_arithmetic 0 0
      { seller := 0, event := 0, ticket_asset_id := 0,
        price := 55000000000, original_price := 50000000000,
        listed_at := 0, expires_at := 0, active := true,
        bump := 0 }).2.2.2.2.2.2.2.2.2.2.1 (by decide)).1 (by decide)

/-- C5 counterexample: with `original_price = 2·10^17` and
`price = 220 000 000 000 000 001` (one above the exact 110 % cap), all of
`create_listing`'s other preconditions hold, yet the call fails with
`MathOverflow` — not `PriceCapExceeded` as the claim states — because
`original_price · 110 ≥ 2^64` makes the checked multiply fail before the
cap comparison is reached. -/
theorem claim_C5_counterexample :
    Marketplace.create_listing Marketplace.testCreateState
        { asset_id := 3, price := 220000000000000001,
          original_price := 200000000000000000, expires_at := 100 } =
      .error .MathOverflow
      ∧ (200000000000000000 : Nat) * 110 / 100 < 220000000000000001 := by
  constructor
  · decide
  · decide

/-- C5 (amended): `create_listing` succeeds only when
`price ≤ ⌊original_price·110/100⌋`; under the other preconditions a price
above the cap fails with `PriceCapExceeded` when `original_price·110`
fits in u64 and with `MathOverflow` when it does not; a price within the
cap (with the multiply in range) is accepted.  The cap is checked at
creation time only: neither `buy_listing` nor `cancel_listing` can ever
fail with `PriceCapExceeded`.  Scenario B (55 accepted at exactly 110 %,
60 rejected) is instantiated by the witness. -/
theorem claim_C5_price_cap_create_only :
    ∀ (s : Marketplace.CreateState) (args : Marketplace.CreateArgs),
      (∀ s', Marketplace.create_listing s args = .ok s' →
        args.price ≤ args.original_price * 110 / 100)
        ∧ (s.marketplace.paused = false → s.listing = none → s.guard = none →
          s.now < args.expires_at →
          (args.original_price * 110 < U64_MOD →
            (args.original_price * 110 / 100 < args.price →
              Marketplace.create_listing s args = .error .PriceCapExceeded)
              ∧ (args.price ≤ args.original_price * 110 / 100 →
                isOkE (Marketplace.create_listing s args) = true))
            ∧ (U64_MOD ≤ args.original_price * 110 →
              Marketplace.create_listing s args = .error .MathOverflow))
        ∧ (∀ b, Marketplace.buy_listing b ≠ .error .PriceCapExceeded)
        ∧ (∀ cs, Marketplace.cancel_listing cs ≠ .error .PriceCapExceeded) := by
  intro s args
  refine ⟨?_, ?_, buy_listing_no_cap_check, cancel_listing_no_cap_check⟩
  · intro s' h
    exact ((create_listing_ok_iff s args s').mp h).2.2.2.2.2.1
  · intro hp hl hg hlt
    constructor
    · intro hmul
      constructor
      · intro hgt
        unfold Marketplace.create_listing
        rw [if_neg (by simp [hp]), if_neg (by simp [hl]),
          if_neg (by simp [hg]), if_neg (not_le.mpr hlt)]
        simp only [validate_price_cap_exceeded
          { seller := s.seller, event := s.event,
            ticket_asset_id := args.asset_id, price := args.price,
            original_price := args.original_price, listed_at := s.now,
            expires_at := args.expires_at, active := true, bump := 0 }
          hmul hgt]
      · intro hcap
        have h := (create_listing_ok_iff s args _).mpr
          ⟨hp, hl, hg, hlt, hmul, hcap, rfl⟩
        rw [h]
        rfl
    · intro hmul
      unfold Marketplace.create_listing
      rw [if_neg (by simp [hp]), if_neg (by simp [hl]),
        if_neg (by simp [hg]), if_neg (not_le.mpr hlt)]
      simp only [validate_price_cap_overflow
        { seller := s.seller, event := s.event,
          ticket_asset_id := args.asset_id, price := args.price,
          original_price := args.original_price, listed_at := s.now,
          expires_at := args.expires_at, active := true, bump := 0 }
        hmul]

/-- C5 witness: Scenario B with `original_price = 50 000 000 000`; price
55 000 000 000 (exactly 110 %) is accepted, price 60 000 000 000 fails
with `PriceCapExceeded`. -/
theorem claim_C5_witness :
    Marketplace.create_listing Marketplace.testCreateState
        { asset_id := 3, price := 60000000000,
          original_price := 50000000000, expires_at := 100 } =
      .error .PriceCapExceeded
      ∧ isOkE (Marketplace.create_listing Marketplace.testCreateState
        { asset_id := 3, price := 55000000000,
          original_price := 50000000000, expires_at := 100 }) = true := by
  constructor
  · exact (((claim_C5_price_cap_create_only Marketplace.testCreateState
      { asset_id := 3, price := 60000000000,
        original_price := 50000000000, expires_at := 100 }).2.1
      rfl rfl rfl (by decide)).1 (by decide)).1 (by decide)
  · exact (((claim_C5_price_cap_create_only Marketplace.testCreateState
      { asset_id := 3, price := 55000000000,
        original_price := 50000000000, expires_at := 100 }).2.1
      rfl rfl rfl (by decide)).1 (by decide)).2 (by decide)

/-- C10: the cap enforced by the marketplace's `create_listing` constrains
`price` only relative to the caller-supplied `original_price` argument —
the event account is an opaque key that the handler never reads — so a
direct call with `original_price ≥ price` passes the cap check for every
price with `original_price·110 < 2^64`: `create_listing` invoked directly
imposes no absolute bound on the resale price. -/
theorem claim_C10_no_absolute_price_bound :
    ∀ (s : Marketplace.CreateState) (args : Marketplace.CreateArgs),
      s.marketplace.paused = false → s.listing = none → s.guard = none →
      s.now < args.expires_at → args.price ≤ args.original_price →
      args.original_price * 110 < U64_MOD →
      ∃ s', Marketplace.create_listing s args = .ok s'
        ∧ s'.listing = some
          { seller := s.seller, event := s.event,
            ticket_asset_id := args.asset_id, price := args.price,
            original_price := args.original_price, listed_at := s.now,
            expires_at := args.expires_at, active := true, bump := 0 }
        ∧ s'.marketplace.total_listings =
          (s.marketplace.total_listings + 1) % U64_MOD := by
  intro s args hp hl hg hlt hle hmul
  have hcap : args.price ≤ args.original_price * 110 / 100 := by
    have h1 : args.original_price ≤ args.original_price * 110 / 100 := by
      omega
    omega
  exact ⟨_, (create_listing_ok_iff s args _).mpr
    ⟨hp, hl, hg, hlt, hmul, hcap, rfl⟩, rfl, rfl⟩

/-- C10 witness: a direct call listing at 10^17 smallest units — 100 000
times the ticket registry's maximum ticket price — is accepted when
`original_price` is passed as the same value. -/
theorem claim_C10_witness :
    ∃ s', Marketplace.create_listing Marketplace.testCreateState
        { asset_id := 3, price := 100000000000000000,
          original_price := 100000000000000000, expires_at := 100 } =
      .ok s'
      ∧ s'.listing = some
        { seller := 1, event := 2, ticket_asset_id := 3,
          price := 100000000000000000,
          original_price := 100000000000000000, listed_at := 0,
          expires_at := 100, active := true, bump := 0 }
      ∧ s'.marketplace.total_listings = 1 % U64_MOD :=
  claim_C10_no_absolute_price_bound Marketplace.testCreateState
    { asset_id := 3, price := 100000000000000000,
      original_price := 100000000000000000, expires_at := 100 }
    rfl rfl rfl (by decide) (by decide) (by decide)

theorem tt_fee_transfer_ok (src dst fee : Nat) (p : Nat × Nat)
    (h : (if 0 < fee then TicketToken.transfer src dst fee
      else .ok (src, dst)) = .ok p) :
    fee ≤ src ∧ p = (src - fee, dst + fee) := by
  by_cases hc : 0 < fee
  · rw [if_pos hc] at h
    have h2 := (tt_transfer_ok_iff src dst fee p).mp h
    exact ⟨h2.1, h2.2.2⟩
  · rw [if_neg hc] at h
    have hf : fee = 0 := by omega
    subst hf
    simp only [Except.ok.injEq] at h
    subst h
    exact ⟨Nat.zero_le _, by simp⟩

theorem buy_ok_guard (s s' : Marketplace.BuyState)
    (h : Marketplace.buy_listing s = .ok s') :
    s.guard.is_locked = false ∧ s'.guard.is_locked = false := by
  unfold Marketplace.buy_listing at h
  split at h
  · cases h
  split at h
  · cases h
  split at h
  · cases h
  rename_i g heqg
  split at h
  · cases h
  rename_i mf vr sa heqs
  split at h
  · cases h
  rename_i b1 s1 heqt1
  split at h
  · cases h
  rename_i b2 mt1 heqt2
  split at h
  · cases h
  rename_i b3 vt1 heqt3
  split at h
  · cases h
  rename_i tv1 heqtv
  split at h
  · rename_i e heqe
    simp [Marketplace.ReentrancyGuard.unlock] at heqe
  rename_i g1 heqg1
  simp only [Except.ok.injEq] at h
  subst h
  have hg := (mkt_lock_ok_iff s.guard g).mp heqg
  simp only [Marketplace.ReentrancyGuard.unlock, Except.ok.injEq] at heqg1
  refine ⟨hg.1, ?_⟩
  rw [← heqg1]

theorem purchase_ok_inv (s : TicketToken.PurchaseState)
    (args : TicketToken.MintTicketArgs) (s' : TicketToken.PurchaseState)
    (rec : TicketToken.TicketsPurchased)
    (h : TicketToken.purchase_tickets s args = .ok (s', rec)) :
    s.venue.verified = true ∧ s.venue.active = true
      ∧ s.event.venue = s.venue_key
      ∧ s.platform_treasury_key = s.platform.treasury
      ∧ s.guard.is_locked = false
      ∧ s.now < s.event.start_time
      ∧ 0 < args.quantity ∧ args.quantity ≤ 10
      ∧ s.event.tickets_sold + args.quantity < U64_MOD
      ∧ s.event.tickets_sold + args.quantity ≤ s.event.total_tickets
      ∧ s.event.ticket_price * args.quantity < U64_MOD
      ∧ rec.total_paid = s.event.ticket_price * args.quantity
      ∧ rec.platform_fee =
        s.event.ticket_price * args.quantity * s.platform.fee_bps / 10000
      ∧ rec.platform_fee ≤ rec.total_paid
      ∧ rec.quantity = args.quantity
      ∧ rec.price_each = s.event.ticket_price
      ∧ rec.start_ticket_number =
        ((s.event.tickets_sold + args.quantity) % U32_MOD + U32_MOD -
          args.quantity % U32_MOD) % U32_MOD
      ∧ s'.event.tickets_sold =
        (s.event.tickets_sold + args.quantity) % U32_MOD
      ∧ s'.venue.total_sales = s.venue.total_sales + args.quantity
      ∧ s'.guard.is_locked = false
      ∧ s'.buyer_lamports = s.buyer_lamports -
        (rec.total_paid - rec.platform_fee) - rec.platform_fee
      ∧ s'.venue_treasury_lamports = s.venue_treasury_lamports +
        (rec.total_paid - rec.platform_fee)
      ∧ s'.platform_treasury_lamports = s.platform_treasury_lamports +
        rec.platform_fee := by
  unfold TicketToken.purchase_tickets at h
  split at h
  · cases h
  rename_i hverified
  split at h
  · cases h
  rename_i hactive
  split at h
  · cases h
  rename_i hvenue
  split at h
  · cases h
  rename_i htreasury
  split at h
  · cases h
  rename_i g heqg
  split at h
  · cases h
  rename_i htime
  split at h
  · cases h
  rename_i hqty
  split at h
  · cases h
  rename_i new_sold heqns
  split at h
  · cases h
  rename_i hcap
  split at h
  · cases h
  rename_i cost heqcost
  split at h
  · cases h
  rename_i fee heqfee
  split at h
  · cases h
  rename_i va heqva
  split at h
  · cases h
  rename_i b1 vt1 heqt1
  split at h
  · cases h
  rename_i b2 pt1 heqt2
  split at h
  · cases h
  rename_i vs1 heqvs
  split at h
  · cases h
  split at h
  · rename_i e heqe
    simp [TicketToken.ReentrancyGuard.unlock] at heqe
  rename_i g1 heqg1
  simp only [Except.ok.injEq, Prod.mk.injEq] at h
  obtain ⟨hS, hR⟩ := h
  subst hS
  subst hR
  have hlock := (tt_lock_ok_iff s.guard g).mp heqg
  obtain ⟨hl1, hl2⟩ := hlock
  subst hl2
  obtain ⟨hns1, hns2⟩ := (safe_add_ok_iff _ _ _).mp heqns
  subst hns2
  obtain ⟨hc1, hc2⟩ := (safe_mul_ok_iff _ _ _).mp heqcost
  subst hc2
  obtain ⟨hf1, hf2⟩ := (calculate_fee_ok_iff _ _ _).mp heqfee
  subst hf2
  obtain ⟨hv1, hv2⟩ := (checked_sub_some_iff _ _ _).mp heqva
  subst hv2
  have ht1 := (tt_transfer_ok_iff _ _ _ _).mp heqt1
  simp only [Prod.mk.injEq] at ht1
  obtain ⟨ht1a, ht1b, ht1c, ht1d⟩ := ht1
  subst ht1c
  subst ht1d
  have ht2 := tt_fee_transfer_ok _ _ _ _ heqt2
  simp only [Prod.mk.injEq] at ht2
  obtain ⟨ht2a, ht2b, ht2c⟩ := ht2
  subst ht2b
  subst ht2c
  obtain ⟨hvs1, hvs2⟩ := (safe_add_ok_iff _ _ _).mp heqvs
  subst hvs2
  simp only [TicketToken.ReentrancyGuard.unlock, Except.ok.injEq] at heqg1
  subst heqg1
  simp only [TicketToken.MAX_TICKET_PURCHASE] at hqty
  refine ⟨by simpa using hverified, by simpa using hactive,
    by simpa using hvenue, by simpa using htreasury, hl1,
    by omega, by omega, by omega, hns1, by omega, hc1,
    rfl, rfl, hv1, rfl, rfl, rfl, rfl, rfl, rfl, rfl, rfl, rfl⟩

/-- C4: a settlement call can complete successfully only if its guard was
unlocked at entry — on a locked guard, `buy_listing` (with the account
constraints satisfied) and `purchase_tickets` (likewise) fail with
`ReentrancyLocked` — and every successfully completed call leaves the
guard's `is_locked` false at exit. -/
theorem claim_C4_guard_unlocked_around_success :
    ∀ (s s' : Marketplace.BuyState) (t t' : TicketToken.PurchaseState)
      (args : TicketToken.MintTicketArgs) (rec : TicketToken.TicketsPurchased),
      (Marketplace.buy_listing s = .ok s' →
        s.guard.is_locked = false ∧ s'.guard.is_locked = false)
        ∧ (s.guard.is_locked = true → s.listing.active = true →
          s.listing.is_expired s.now = false →
          Marketplace.buy_listing s = .error .ReentrancyLocked)
        ∧ (TicketToken.purchase_tickets t args = .ok (t', rec) →
          t.guard.is_locked = false ∧ t'.guard.is_locked = false)
        ∧ (t.guard.is_locked = true → t.venue.verified = true →
          t.venue.active = true → t.event.venue = t.venue_key →
          t.platform_treasury_key = t.platform.treasury →
          TicketToken.purchase_tickets t args = .error .ReentrancyLocked) := by
  intro s s' t t' args rec
  refine ⟨buy_ok_guard s s', ?_, ?_, ?_⟩
  · intro hlk hact hexp
    simp [Marketplace.buy_listing, hact, hexp,
      Marketplace.ReentrancyGuard.lock, hlk]
  · intro h
    have hinv := purchase_ok_inv t args t' rec h
    exact ⟨hinv.2.2.2.2.1, hinv.2.2.2.2.2.2.2.2.2.2.2.2.2.2.2.2.2.2.2.1⟩
  · intro hlk hver hact hv ht
    simp [TicketToken.purchase_tickets, hver, hact, hv, ht,
      TicketToken.ReentrancyGuard.lock, hlk]

/-- C4 witness: a concrete successful buy and purchase (guard unlocked
before and after), and both calls rejected with `ReentrancyLocked` when
the guard starts locked. -/
theorem claim_C4_witness :
    (Marketplace.testBuyState.guard.is_locked = false
      ∧ Marketplace.testBuyResult.guard.is_locked = false)
      ∧ Marketplace.buy_listing
        { Marketplace.testBuyState with
          guard := { is_locked := true, bump := 0 } } =
        .error .ReentrancyLocked
      ∧ TicketToken.purchase_tickets
        { TicketToken.testPurchaseState with
          guard := { is_locked := true, bump := 0 } } TicketToken.testArgs =
        .error .ReentrancyLocked := by
  refine ⟨?_, ?_, ?_⟩
  · exact (claim_C4_guard_unlocked_around_success Marketplace.testBuyState
      Marketplace.testBuyResult TicketToken.testPurchaseState
      TicketToken.testPurchaseResult TicketToken.testArgs
      TicketToken.testPurchaseRecord).1 (by decide)
  · exact (claim_C4_guard_unlocked_around_success
      { Marketplace.testBuyState with
        guard := { is_locked := true, bump := 0 } }
      Marketplace.testBuyResult TicketToken.testPurchaseState
      TicketToken.testPurchaseResult TicketToken.testArgs
      TicketToken.testPurchaseRecord).2.1 rfl rfl rfl
  · exact (claim_C4_guard_unlocked_around_success Marketplace.testBuyState
      Marketplace.testBuyResult
      { TicketToken.testPurchaseState with
        guard := { is_locked := true, bump := 0 } }
      TicketToken.testPurchaseResult TicketToken.testArgs
      TicketToken.testPurchaseRecord).2.2.2 rfl rfl rfl rfl rfl

/-- C2: every listing or settlement operation is all-or-nothing — when a
call returns an error, the committed (ledger-level) state equals the
pre-call state in every observable component: balances, listing fields
including `active`, the guard's `is_locked`, and all aggregate counters.
The handlers return early on every error and the chain runtime discards
any account writes of a failed call (`ledgerRun`). -/
theorem claim_C2_error_no_partial_effect :
    ∀ (cs : Marketplace.CreateState) (cargs : Marketplace.CreateArgs)
      (b : Marketplace.BuyState) (xs : Marketplace.CancelState)
      (t : TicketToken.PurchaseState) (targs : TicketToken.MintTicketArgs),
      (isOkE (Marketplace.create_listing cs cargs) = false →
        ledgerRun (fun u => Marketplace.create_listing u cargs) cs = cs)
        ∧ (isOkE (Marketplace.buy_listing b) = false →
          ledgerRun Marketplace.buy_listing b = b
            ∧ (ledgerRun Marketplace.buy_listing b).buyer_lamports =
              b.buyer_lamports
            ∧ (ledgerRun Marketplace.buy_listing b).seller_lamports =
              b.seller_lamports
            ∧ (ledgerRun Marketplace.buy_listing b).marketplace_treasury_lamports =
              b.marketplace_treasury_lamports
            ∧ (ledgerRun Marketplace.buy_listing b).venue_treasury_lamports =
              b.venue_treasury_lamports
            ∧ (ledgerRun Marketplace.buy_listing b).listing =
              b.listing
            ∧ (ledgerRun Marketplace.buy_listing b).guard.is_locked =
              b.guard.is_locked
            ∧ (ledgerRun Marketplace.buy_listing b).marketplace.total_sales =
              b.marketplace.total_sales
            ∧ (ledgerRun Marketplace.buy_listing b).marketplace.total_volume =
              b.marketplace.total_volume
            ∧ (ledgerRun Marketplace.buy_listing b).marketplace.total_listings =
              b.marketplace.total_listings)
        ∧ (isOkE (Marketplace.cancel_listing xs) = false →
          ledgerRun Marketplace.cancel_listing xs = xs)
        ∧ (isOkE (TicketToken.purchase_tickets_state targs t) = false →
          ledgerRun (TicketToken.purchase_tickets_state targs) t = t
            ∧ (ledgerRun (TicketToken.purchase_tickets_state targs) t).event.tickets_sold =
              t.event.tickets_sold
            ∧ (ledgerRun (TicketToken.purchase_tickets_state targs) t).venue.total_sales =
              t.venue.total_sales
            ∧ (ledgerRun (TicketToken.purchase_tickets_state targs) t).guard.is_locked =
              t.guard.is_locked
            ∧ (ledgerRun (TicketToken.purchase_tickets_state targs) t).buyer_lamports =
              t.buyer_lamports
            ∧ (ledgerRun (TicketToken.purchase_tickets_state targs) t).venue_treasury_lamports =
              t.venue_treasury_lamports
            ∧ (ledgerRun (TicketToken.purchase_tickets_state targs) t).platform_treasury_lamports =
              t.platform_treasury_lamports) := by
  intro cs cargs b xs t targs
  refine ⟨?_, ?_, ?_, ?_⟩
  · intro h
    exact ledgerRun_of_not_ok _ cs h
  · intro h
    have he := ledgerRun_of_not_ok _ b h
    rw [he]
    exact ⟨rfl, rfl, rfl, rfl, rfl, rfl, rfl, rfl, rfl, rfl⟩
  · intro h
    exact ledgerRun_of_not_ok _ xs h
  · intro h
    have he := ledgerRun_of_not_ok _ t h
    rw [he]
    exact ⟨rfl, rfl, rfl, rfl, rfl, rfl, rfl⟩

/-- C2 witness: four concrete failing calls — an expired-listing creation,
a buy of an inactive listing, a cancel by a non-seller, and an 11-ticket
purchase — each leaving the committed state exactly equal to the pre-call
state. -/
theorem claim_C2_witness :
    ledgerRun
      (fun u => Marketplace.create_listing u
        { asset_id := 3, price := 10000, original_price := 10000,
          expires_at := 100 })
      { Marketplace.testCreateState with now := 200 } =
      { Marketplace.testCreateState with now := 200 }
      ∧ ledgerRun Marketplace.buy_listing
        { Marketplace.testBuyState with
          listing := { Marketplace.testListing with active := false } } =
        { Marketplace.testBuyState with
          listing := { Marketplace.testListing with active := false } }
      ∧ ledgerRun Marketplace.cancel_listing
        { caller := 9, listing := some Marketplace.testListing,
          guard := some { is_locked := false, bump := 0 } } =
        { caller := 9, listing := some Marketplace.testListing,
          guard := some { is_locked := false, bump := 0 } }
      ∧ ledgerRun
        (TicketToken.purchase_tickets_state
          { TicketToken.testArgs with quantity := 11 })
        TicketToken.testPurchaseState = TicketToken.testPurchaseState := by
  refine ⟨?_, ?_, ?_, ?_⟩
  · exact (claim_C2_error_no_partial_effect
      { Marketplace.testCreateState with now := 200 }
      { asset_id := 3, price := 10000, original_price := 10000,
        expires_at := 100 }
      Marketplace.testBuyState
      { caller := 9, listing := some Marketplace.testListing,
        guard := some { is_locked := false, bump := 0 } }
      TicketToken.testPurchaseState TicketToken.testArgs).1 (by decide)
  · exact ((claim_C2_error_no_partial_effect Marketplace.testCreateState
      { asset_id := 3, price := 10000, original_price := 10000,
        expires_at := 100 }
      { Marketplace.testBuyState with
        listing := { Marketplace.testListing with active := false } }
      { caller := 9, listing := some Marketplace.testListing,
        guard := some { is_locked := false, bump := 0 } }
      TicketToken.testPurchaseState TicketToken.testArgs).2.1
      (by decide)).1
  · exact (claim_C2_error_no_partial_effect Marketplace.testCreateState
      { asset_id := 3, price := 10000, original_price := 10000,
        expires_at := 100 }
      Marketplace.testBuyState
      { caller := 9, listing := some Marketplace.testListing,
        guard := some { is_locked := false, bump := 0 } }
      TicketToken.testPurchaseState TicketToken.testArgs).2.2.1 (by decide)
  · exact ((claim_C2_error_no_partial_effect Marketplace.testCreateState
      { asset_id := 3, price := 10000, original_price := 10000,
        expires_at := 100 }
      Marketplace.testBuyState
      { caller := 9, listing := some Marketplace.testListing,
        guard := some { is_locked := false, bump := 0 } }
      TicketToken.testPurchaseState
      { TicketToken.testArgs with quantity := 11 }).2.2.2 (by decide)).1

/-- C8: under its preconditions a successful `purchase_tickets` computes
`ticket_cost = ticket_price·quantity`, `platform_fee = fee(ticket_cost,
fee_bps)` and `venue_amount = ticket_cost − platform_fee` (all checked),
moves exactly those amounts (buyer pays the cost, the venue treasury
receives cost − fee, the platform treasury receives the fee), increases
`event.tickets_sold` and `venue.total_sales` by exactly `quantity`, and
emits a record whose `start_ticket_number` equals the pre-call
`tickets_sold`, so the reserved range is `[tickets_sold − quantity,
tickets_sold)` of the updated count.  A violated precondition such as
`quantity = 11` fails the call with no fund movement and no counter
change.  (`total_tickets < 2^32` is the u32 representation bound of the
stored field.) -/
theorem claim_C8_purchase_settlement :
    ∀ (s : TicketToken.PurchaseState) (args : TicketToken.MintTicketArgs)
      (s' : TicketToken.PurchaseState) (rec : TicketToken.TicketsPurchased),
      (s.event.total_tickets < U32_MOD →
        TicketToken.purchase_tickets s args = .ok (s', rec) →
        (s.venue.verified = true ∧ s.venue.active = true
            ∧ s.event.venue = s.venue_key
            ∧ s.now < s.event.start_time
            ∧ 0 < args.quantity ∧ args.quantity ≤ 10
            ∧ s.event.tickets_sold + args.quantity ≤ s.event.total_tickets)
          ∧ rec.total_paid = s.event.ticket_price * args.quantity
          ∧ rec.platform_fee =
            s.event.ticket_price * args.quantity * s.platform.fee_bps / 10000
          ∧ s'.event.tickets_sold = s.event.tickets_sold + args.quantity
          ∧ s'.venue.total_sales = s.venue.total_sales + args.quantity
          ∧ rec.start_ticket_number = s.event.tickets_sold
          ∧ s'.buyer_lamports = s.buyer_lamports - rec.total_paid
          ∧ s'.venue_treasury_lamports = s.venue_treasury_lamports +
            (rec.total_paid - rec.platform_fee)
          ∧ s'.platform_treasury_lamports = s.platform_treasury_lamports +
            rec.platform_fee)
        ∧ (args.quantity = 11 →
          isOkE (TicketToken.purchase_tickets s args) = false
            ∧ ledgerRun (TicketToken.purchase_tickets_state args) s = s) := by
  intro s args s' rec
  constructor
  · intro htt h
    obtain ⟨h1, h2, h3, h4, h5, h6, h7, h8, h9, h10, h11, h12, h13, h14,
      h15, h16, h17, h18, h19, h20, h21, h22, h23⟩ := purchase_ok_inv s args s' rec h
    have hlt : s.event.tickets_sold + args.quantity < U32_MOD := by omega
    refine ⟨⟨h1, h2, h3, h6, h7, h8, h10⟩, h12, h13, ?_, h19, ?_, ?_, h22, h23⟩
    · rw [h18, Nat.mod_eq_of_lt hlt]
    · rw [U32_MOD_eq] at h17 hlt
      omega
    · rw [h21]
      omega
  · intro hq
    have hnotok : isOkE (TicketToken.purchase_tickets s args) = false := by
      cases hres : TicketToken.purchase_tickets s args with
      | ok p =>
        obtain ⟨s1, rec1⟩ := p
        have hinv := purchase_ok_inv s args s1 rec1 hres
        have hle : args.quantity ≤ 10 := hinv.2.2.2.2.2.2.2.1
        omega
      | error e => simp [isOkE]
    refine ⟨hnotok, ledgerRun_of_not_ok _ _ ?_⟩
    unfold TicketToken.purchase_tickets_state
    cases hres : TicketToken.purchase_tickets s args with
    | ok p =>
      rw [hres] at hnotok
      simp [isOkE] at hnotok
    | error e => simp [isOkE, Except.map]

/-- C8 witness: the concrete two-ticket purchase advances the counters by
2, reserves tickets starting at the pre-call count 10, and the same
context with `quantity = 11` is rejected. -/
theorem claim_C8_witness :
    TicketToken.testPurchaseResult.event.tickets_sold =
      TicketToken.testEvent.tickets_sold + 2
      ∧ TicketToken.testPurchaseRecord.start_ticket_number =
        TicketToken.testEvent.tickets_sold
      ∧ isOkE (TicketToken.purchase_tickets TicketToken.testPurchaseState
        { TicketToken.testArgs with quantity := 11 }) = false := by
  have hmain := (claim_C8_purchase_settlement TicketToken.testPurchaseState
    TicketToken.testArgs TicketToken.testPurchaseResult
    TicketToken.testPurchaseRecord).1 (by decide) (by decide)
  refine ⟨hmain.2.2.2.1, hmain.2.2.2.2.2.1, ?_⟩
  exact ((claim_C8_purchase_settlement TicketToken.testPurchaseState
    { TicketToken.testArgs with quantity := 11 }
    TicketToken.testPurchaseResult TicketToken.testPurchaseRecord).2
    rfl).1

theorem checked_mul_some_iff (a b v : Nat) :
    checked_mul a b = some v ↔ a * b < U64_MOD ∧ v = a * b := by
  unfold checked_mul
  by_cases h : a * b < U64_MOD <;> simp [h, eq_comm]

/-- C9: `list_ticket_on_marketplace` fails unless `event.resaleable`,
`now < event.start_time`, `price ≤ ⌊event.ticket_price·110/100⌋` and
`now < expires_at ≤ event.start_time`; when these hold (with the checked
multiply in range, which `create_event`'s own price bound — last conjunct
— guarantees for every event it creates) it mutates no account of its own
and forwards exactly `(asset_id, price, original_price =
event.ticket_price, expires_at)` to the marketplace `create_listing`
selector, signed by the ticket owner as the only signer. -/
theorem claim_C9_bridge_forwards_exact_args :
    ∀ (c : TicketToken.ListCtx) (asset price : Nat) (expires : Int),
      (∀ instr,
        TicketToken.list_ticket_on_marketplace c asset price expires =
          .ok instr →
        (c.event.resaleable = true
            ∧ c.now < c.event.start_time
            ∧ price ≤ c.event.ticket_price * 110 / 100
            ∧ c.now < expires ∧ expires ≤ c.event.start_time)
          ∧ instr.program_id = c.marketplace_program
          ∧ instr.accounts =
            [{ pubkey := c.ticket_owner, is_signer := true,
               is_writable := true },
             { pubkey := c.marketplace_config, is_signer := false,
               is_writable := false },
             { pubkey := c.listing_account, is_signer := false,
               is_writable := true },
             { pubkey := c.event_key, is_signer := false,
               is_writable := false },
             { pubkey := c.listing_reentrancy_guard, is_signer := false,
               is_writable := true },
             { pubkey := c.system_program, is_signer := false,
               is_writable := false }]
          ∧ instr.data =
            [242, 93, 182, 110, 115, 127, 189, 59] ++ le_bytes 32 asset ++
              le_bytes 8 price ++ le_bytes 8 c.event.ticket_price ++
              i64_le_bytes expires)
        ∧ (c.event.ticket_price * 110 < U64_MOD →
          c.event.resaleable = true → c.now < c.event.start_time →
          price ≤ c.event.ticket_price * 110 / 100 →
          c.now < expires → expires ≤ c.event.start_time →
          isOkE (TicketToken.list_ticket_on_marketplace c asset price
            expires) = true)
        ∧ (∀ p, TicketToken.validate_price_bounds p = .ok () →
          p * 110 < U64_MOD) := by
  intro c asset price expires
  refine ⟨?_, ?_, ?_⟩
  · intro instr h
    unfold TicketToken.list_ticket_on_marketplace at h
    split at h
    · cases h
    rename_i hres
    split at h
    · cases h
    rename_i htime
    split at h
    · cases h
    rename_i m heqm
    split at h
    · cases h
    rename_i mp heqmp
    split at h
    · cases h
    rename_i hcap
    split at h
    · cases h
    rename_i hexp
    simp only [Except.ok.injEq] at h
    subst h
    obtain ⟨hm1, hm2⟩ := (checked_mul_some_iff _ _ _).mp heqm
    have hmp2 : mp = c.event.ticket_price * 110 / 100 := by
      unfold checked_div at heqmp
      simp at heqmp
      omega
    refine ⟨⟨by simpa using hres, by omega, ?_, ?_, ?_⟩, rfl, rfl, rfl⟩
    · rw [not_not] at hcap
      omega
    · rw [not_and_or] at hexp
      push_neg at hexp
      omega
    · rw [not_and_or] at hexp
      push_neg at hexp
      omega
  · intro hmul hres htime hcap hexp1 hexp2
    unfold TicketToken.list_ticket_on_marketplace
    rw [if_neg (by simp [hres]), if_neg (not_le.mpr htime)]
    unfold checked_mul checked_div
    rw [if_pos hmul]
    simp only [OfNat.ofNat_ne_zero, if_false, ite_false]
    rw [if_neg (not_not_intro hcap), if_neg (not_not_intro ⟨hexp1, hexp2⟩)]
    rfl
  · intro p hp
    unfold TicketToken.validate_price_bounds at hp
    rw [U64_MOD_eq]
    split at hp
    · cases hp
    split at hp
    · cases hp
    rename_i hlow hhigh
    simp only [TicketToken.MAX_TICKET_PRICE] at hhigh
    omega

set_option maxRecDepth 8000 in
/-- C9 witness: for the concrete bridge context the built instruction
carries exactly the asset id, price 110 000 (the exact cap),
`original_price = event.ticket_price` and the expiry, and the call
succeeds. -/
theorem claim_C9_witness :
    TicketToken.testInstruction.data =
      [242, 93, 182, 110, 115, 127, 189, 59] ++ le_bytes 32 9 ++
        le_bytes 8 110000 ++ le_bytes 8 TicketToken.testEvent.ticket_price ++
        i64_le_bytes 500
      ∧ isOkE (TicketToken.list_ticket_on_marketplace
        TicketToken.testListCtx 9 110000 500) = true := by
  constructor
  · exact ((claim_C9_bridge_forwards_exact_args
      TicketToken.testListCtx 9 110000 500).1
      TicketToken.testInstruction (by decide)).2.2.2
  · exact (claim_C9_bridge_forwards_exact_args
      TicketToken.testListCtx 9 110000 500).2.1
      (by decide) rfl (by decide) (by decide) (by decide) (by decide)
